import Mathlib

/-!
Verification of the EXIF/TIFF metadata extraction code in this repository
(`src/experimental/jpegreader.py` and `src/experimental/rafreader.py`)
against its natural-language specification.

Buffers are modelled as `List Nat` (one element per byte).  Python slicing
`data[a:b]` clamps at the end of the buffer and never raises; `struct.unpack`
raises `struct.error` when the slice does not have exactly the size of the
format, and `bytes.decode('ascii')` raises `UnicodeDecodeError` when a byte is
at least 128.  Raised (uncaught) exceptions are modelled as error values of
the corresponding embedding, and printed output is modelled as the returned
data since the source prints its results instead of returning them.
-/

namespace ExifRs

/-- Endianness selected by a TIFF header (`'<'` or `'>'` in the source). -/
inductive Endian
  | little
  | big
deriving DecidableEq

/-- Python slice `data[pos : pos + n]`: clamps at the end, never raises. -/
def sliceN (data : List Nat) (pos n : Nat) : List Nat :=
  (data.drop pos).take n

/-- Python slice `data[a : b]`: clamps, and is empty when `b ≤ a`. -/
def pySlice (data : List Nat) (a b : Nat) : List Nat :=
  (data.drop a).take (b - a)

/-- Little-endian value of a byte list (`int.from_bytes(_, 'little')`). -/
def fromBytesLE : List Nat → Nat
  | [] => 0
  | b :: rest => b + 256 * fromBytesLE rest

/-- Big-endian value of a byte list (`int.from_bytes(_, 'big')`). -/
def fromBytesBE (l : List Nat) : Nat :=
  l.foldl (fun acc b => 256 * acc + b) 0

/-- Endianness-directed byte decoding. -/
def fromBytesE : Endian → List Nat → Nat
  | .little, l => fromBytesLE l
  | .big, l => fromBytesBE l

/-- Decode consecutive 2-byte groups (`struct.unpack` with a run of `H`). -/
def decode16s (e : Endian) : List Nat → List Nat
  | a :: b :: rest => fromBytesE e [a, b] :: decode16s e rest
  | _ => []

/-- Decode consecutive 4-byte groups (`struct.unpack` with a run of `I`/`L`). -/
def decode32s (e : Endian) : List Nat → List Nat
  | a :: b :: c :: d :: rest => fromBytesE e [a, b, c, d] :: decode32s e rest
  | _ => []

/-- Group a flat list two-at-a-time into (numerator, denominator) pairs. -/
def pairUp : List Nat → List (Nat × Nat)
  | a :: b :: rest => (a, b) :: pairUp rest
  | _ => []

/-- Lookup in a Python dict literal given as an association list: a later
binding for the same key overwrites an earlier one (last write wins). -/
def dictLookup (l : List (Nat × String)) (k : Nat) : Option String :=
  (l.reverse.find? (fun p => p.1 == k)).map (fun p => p.2)

/-- Uppercase hexadecimal digit. -/
def hexDigit (n : Nat) : Char :=
  if n < 10 then Char.ofNat (48 + n) else Char.ofNat (55 + n)

/-- Four-digit uppercase hexadecimal rendering of a 16-bit tag
(Python `f'0x\x7btag:04X\x7d'` without the `0x`). -/
def hex4 (n : Nat) : String :=
  String.mk [hexDigit (n / 4096 % 16), hexDigit (n / 256 % 16),
             hexDigit (n / 16 % 16), hexDigit (n % 16)]

/-- Tag-name resolution: `EXIF_TAGS.get(tag, f'Unknown tag 0x...')`. -/
def tagNameIn (tbl : List (Nat × String)) (tag : Nat) : String :=
  match dictLookup tbl tag with
  | some s => s
  | none => "Unknown tag 0x" ++ hex4 tag

/-- The `EXIF_TAGS` dict of `src/experimental/jpegreader.py`, in source
order (the key `0x8769` appears twice; the later entry wins on lookup). -/
def jpegExifTags : List (Nat × String) :=
  [(0x0100, "ImageWidth"), (0x0101, "ImageHeight"), (0x010f, "Make"),
   (0x0110, "Model"), (0x0112, "Orientation"), (0x011a, "XResolution"),
   (0x011b, "YResolution"), (0x013b, "Artist"), (0x013e, "WhitePoint"),
   (0x013f, "PrimaryChromaticities"), (0x0128, "ResolutionUnit"),
   (0x0131, "Software"), (0x0132, "DateTime"), (0x0211, "YCbCrCoefficients"),
   (0x0213, "YCbCrPositioning"), (0x8769, "ExifOffset"), (0x8298, "Copyright"),
   (0x8769, "Exif Offset"), (0x829a, "ExposureTime"), (0x829d, "FNumber"),
   (0x8827, "ISOSpeedRatings"), (0x9003, "DateTimeOriginal"),
   (0x9004, "DateTimeDigitized"), (0x9201, "ShutterSpeedValue"),
   (0x9202, "ApertureValue"), (0x9204, "ExposureBiasValue"),
   (0x9206, "SubjectDistance"), (0x9207, "MeteringMode"), (0x9209, "Flash"),
   (0x927c, "MakerNote"), (0x9286, "UserComment"), (0xa001, "ColorSpace"),
   (0xa002, "ExifImageWidth"), (0xa003, "ExifImageHeight"),
   (0xa005, "InteroperabilityOffset"), (0xa430, "CameraOwnerName"),
   (0xa431, "SerialNumber"), (0xa432, "LensInfo"), (0xa433, "LensMake"),
   (0xa434, "LensModel"), (0xa435, "LensSerialNumber"), (0xc4a5, "PrintIM")]

/-- The `EXIF_TAGS` dict of `src/experimental/rafreader.py`, in source order. -/
def rafExifTags : List (Nat × String) :=
  [(0x010F, "Make"), (0x0110, "Model"), (0x0112, "Orientation"),
   (0x011A, "XResolution"), (0x011B, "YResolution"), (0x0128, "ResolutionUnit"),
   (0x0131, "Software"), (0x0132, "DateTime"), (0x0213, "YCbCrPositioning"),
   (0x8769, "ExifOffset"), (0x829A, "ExposureTime"), (0x829D, "FNumber"),
   (0x8827, "ISOSpeedRatings"), (0x9003, "DateTimeOriginal"),
   (0x9004, "DateTimeDigitized"), (0x9201, "ShutterSpeedValue"),
   (0x9202, "ApertureValue"), (0x9204, "ExposureBiasValue"),
   (0x9207, "MeteringMode"), (0x9209, "Flash"), (0x9214, "SubjectArea"),
   (0x927C, "MakerNote"), (0x9286, "UserComment"), (0xA001, "ColorSpace"),
   (0xA002, "ExifImageWidth"), (0xA003, "ExifImageHeight"),
   (0xA005, "InteroperabilityOffset"), (0xA20E, "FocalPlaneXResolution"),
   (0xA20F, "FocalPlaneYResolution"), (0xA210, "FocalPlaneResolutionUnit"),
   (0xA217, "SensingMethod"), (0xA300, "FileSource"), (0xA301, "SceneType")]

/-- The 6-byte literal signature `b'Exif\x00\x00'`. -/
def exifSig : List Nat := [0x45, 0x78, 0x69, 0x66, 0x00, 0x00]

/-- Python `data.find(b'\xff\xe1')` starting the count at `i`:
first index of the two-byte marker, `none` when absent. -/
def findMarker : List Nat → Nat → Option Nat
  | a :: b :: rest, i =>
    if a = 0xFF ∧ b = 0xE1 then some i else findMarker (b :: rest) (i + 1)
  | _, _ => none

/-- Decoded payload of one IFD entry in `jpegreader.parse_exif`
(the `value` variable that gets printed). -/
inductive JValue
  | bytes (bs : List Nat)
  | text (bs : List Nat)
  | shorts (xs : List Nat)
  | longs (xs : List Nat)
  | rationals (xs : List (Nat × Nat))
  | noneV
deriving DecidableEq

/-- One printed tag record of `jpegreader.parse_exif`. -/
structure JTag where
  tag : Nat
  name : String
  value : JValue
deriving DecidableEq

/-- Uncaught exceptions `jpegreader.parse_exif` can terminate with:
the two explicit `ValueError` raises, `struct.error` from an unpack of a
wrong-sized slice, and `UnicodeDecodeError` from `bytes.decode('ascii')`. -/
inductive JpegErr
  | noApp1
  | invalidExif
  | structError
  | unicodeError
deriving DecidableEq

/-- Python `bytes.decode('ascii')` succeeds iff every byte is below 128. -/
def asciiOk (bs : List Nat) : Bool :=
  bs.all (fun b => b < 128)

/-- Value decoding of one entry in `jpegreader.parse_exif` (lines 81-95):
the value bytes are always fetched at `file_offset + value_offset` where
`file_offset = 12` is a hard-coded constant; there is no inline-value path. -/
def decodeJValue (data : List Nat) (e : Endian) (typ count pos : Nat) :
    Except JpegErr JValue :=
  if typ = 1 then
    .ok (.bytes (sliceN data pos count))
  else if typ = 2 then
    let bs := sliceN data pos count
    if asciiOk bs then .ok (.text bs) else .error .unicodeError
  else if typ = 3 then
    let bs := sliceN data pos (2 * count)
    if bs.length = 2 * count then .ok (.shorts (decode16s e bs))
    else .error .structError
  else if typ = 4 then
    let bs := sliceN data pos (4 * count)
    if bs.length = 4 * count then .ok (.longs (decode32s e bs))
    else .error .structError
  else if typ = 5 then
    let bs := sliceN data pos (8 * count)
    if bs.length = 8 * count then .ok (.rationals (pairUp (decode32s e bs)))
    else .error .structError
  else
    .ok .noneV

/-- Entry loop of `jpegreader.parse_exif` (lines 74-98): unpacks `HHII`
records sequentially; the accumulated output is the list of fully printed
tags, paired with the exception that terminated the loop, if any. -/
def jpegTagLoop (data : List Nat) (e : Endian) :
    Nat → Nat → List JTag → List JTag × Option JpegErr
  | 0, _, acc => (acc.reverse, none)
  | n + 1, offset, acc =>
    if (sliceN data offset 12).length = 12 then
      let tag := fromBytesE e (sliceN data offset 2)
      let typ := fromBytesE e (sliceN data (offset + 2) 2)
      let count := fromBytesE e (sliceN data (offset + 4) 4)
      let vo := fromBytesE e (sliceN data (offset + 8) 4)
      match decodeJValue data e typ count (12 + vo) with
      | .error err => (acc.reverse, some err)
      | .ok v =>
        jpegTagLoop data e n (offset + 12)
          (⟨tag, tagNameIn jpegExifTags tag, v⟩ :: acc)
    else (acc.reverse, some .structError)

/-- Embedding of `parse_exif` from `src/experimental/jpegreader.py`:
finds the first `0xFFE1`, skips 4 bytes, checks the `Exif\x00\x00`
signature, reads the endianness marker and the offset to the first IFD
(relative to the TIFF header at `start + 6`), then walks the entries.
The result is the list of printed tag records plus the terminating
uncaught exception, if any. -/
def jpegParseExif (data : List Nat) : List JTag × Option JpegErr :=
  match findMarker data 0 with
  | none => ([], some .noApp1)
  | some s =>
    let start := s + 4
    if sliceN data start 6 = exifSig then
      let e := if sliceN data (start + 6) 2 = [0x49, 0x49]
               then Endian.little else Endian.big
      let offsetToIfd := fromBytesE e (sliceN data (start + 10) 4)
      let offset := start + 6 + offsetToIfd
      if (sliceN data offset 2).length = 2 then
        jpegTagLoop data e (fromBytesE e (sliceN data offset 2)) (offset + 2) []
      else ([], some .structError)
    else ([], some .invalidExif)

/-- Embedding of `find_app1_exif` from `src/experimental/rafreader.py`.
The scan advances `index` one byte at a time while `index + 4 < len(data)`;
`rem` is always `data.drop index`, so the loop is structurally recursive on
`rem` and empties exactly when the guard would run out of buffer. -/
def findAuxGo (data : List Nat) : Nat → List Nat → Option (List Nat)
  | _, [] => none
  | index, _ :: rtl =>
    if index + 4 < data.length then
      if sliceN data index 2 = [0xFF, 0xE1] then
        if sliceN data (index + 4) 6 = exifSig then
          some (pySlice data (index + 10)
            (index + 2 + fromBytesBE (sliceN data (index + 2) 2)))
        else findAuxGo data (index + 1) rtl
      else findAuxGo data (index + 1) rtl
    else none

/-- Top-level `find_app1_exif(data)`: scan from index 0. -/
def findApp1Exif (data : List Nat) : Option (List Nat) :=
  findAuxGo data 0 data

/-- Terminal outcome of `parse_exif` in `src/experimental/rafreader.py`:
normal fall-through (`done`), the early return after printing
"Offset out of bounds for data size" (`oob`), the early returns for a bad
endianness marker or TIFF magic, and an uncaught `struct.error` (`crash`,
possible only when the buffer is shorter than 8 bytes).  Each carries the
tag records printed before the function ended. -/
inductive ROut
  | done (tags : List (Nat × String))
  | oob (tags : List (Nat × String))
  | invalidTiff
  | invalidMagic
  | crash
deriving DecidableEq

/-- Endianness-directed read of `w` bytes at `pos` (every use in
`rafreader.parse_exif` is guarded so that exactly `w` bytes are available,
matching `struct.unpack`). -/
def readU (e : Endian) (data : List Nat) (pos w : Nat) : Nat :=
  fromBytesE e (sliceN data pos w)

/-- Inner `for _ in range(num_tags)` loop of `rafreader.parse_exif`
(lines 131-140): `.inl acc` models the early `return` taken when
`offset > len(data) - 12`, `.inr` carries the offset past the entries. -/
def rafEntryLoop (data : List Nat) (e : Endian) :
    Nat → Nat → List (Nat × String) →
      Sum (List (Nat × String)) (Nat × List (Nat × String))
  | 0, offset, acc => .inr (offset, acc)
  | n + 1, offset, acc =>
    if offset > data.length - 12 then .inl acc
    else
      rafEntryLoop data e n (offset + 12)
        ((readU e data offset 2,
          tagNameIn rafExifTags (readU e data offset 2)) :: acc)

/-- Outer `while offset and offset < len(data) - 2` loop of
`rafreader.parse_exif` (lines 126-148).  The source has no bound on the
number of IFDs it follows, so the embedding spends one unit of `fuel` per
iteration and answers `none` when the fuel runs out; a `some` answer is
therefore an execution that actually terminated. -/
def rafIfdLoop (data : List Nat) (e : Endian) :
    Nat → Nat → List (Nat × String) → Option ROut
  | 0, _, _ => none
  | fuel + 1, offset, acc =>
    if offset ≠ 0 ∧ offset < data.length - 2 then
      match rafEntryLoop data e (readU e data offset 2) (offset + 2) acc with
      | .inl accF => some (.oob accF.reverse)
      | .inr (off2, acc2) =>
        if off2 + 4 > data.length then some (.done acc2.reverse)
        else
          if readU e data off2 4 = 0 then some (.done acc2.reverse)
          else rafIfdLoop data e fuel (readU e data off2 4) acc2
    else some (.done acc.reverse)

/-- Embedding of `parse_exif` from `src/experimental/rafreader.py`: the
input block is the one returned by `find_app1_exif`, so the TIFF header is
at offset 0.  Checks the endianness marker and the magic 42, reads the
first-IFD offset at bytes 4..8 and enters the IFD chain at
`first_ifd_offset + 6`. -/
def rafParseExif (data : List Nat) (fuel : Nat) : Option ROut :=
  if sliceN data 0 2 = [0x49, 0x49] ∨ sliceN data 0 2 = [0x4D, 0x4D] then
    let e := if sliceN data 0 2 = [0x49, 0x49] then Endian.little
             else Endian.big
    if (sliceN data 2 2).length = 2 then
      if readU e data 2 2 = 42 then
        if (sliceN data 4 4).length = 4 then
          rafIfdLoop data e fuel (readU e data 4 4 + 6) []
        else some .crash
      else some .invalidMagic
    else some .crash
  else some .invalidTiff

/-- A Python binary file object over an in-memory buffer: the data plus the
current cursor position. -/
structure PyFile where
  data : List Nat
  pos : Nat

/-- Python `file.read(n)`: returns the available bytes (possibly fewer than
`n` near or past the end) and advances the cursor by the number actually
read. -/
def fread (f : PyFile) (n : Nat) : List Nat × PyFile :=
  let bs := (f.data.drop f.pos).take n
  (bs, ⟨f.data, f.pos + bs.length⟩)

/-- Python `file.seek(n, 1)`: relative seek, may move past the end. -/
def fseekRel (f : PyFile) (n : Nat) : PyFile :=
  ⟨f.data, f.pos + n⟩

/-- Uncaught exceptions `read_raf_file` can terminate with:
`UnicodeDecodeError` from `.decode('ascii')` of a header string field, and
`struct.error` from `struct.unpack('>I', ...)` of a short read. -/
inductive RafErr
  | unicodeErr
  | structErr
deriving DecidableEq

/-- Fields `read_raf_file` extracts from the fixed-layout RAF header
(string fields as the byte lists left after the source's `strip` calls). -/
structure RafHeaderR where
  magic : List Nat
  formatVersion : List Nat
  cameraId : List Nat
  cameraModel : List Nat
  jpegOffset : Nat
  jpegLength : Nat
  cfaHeaderOffset : Nat
  cfaHeaderLength : Nat
  cfaOffset : Nat
  cfaLength : Nat
deriving DecidableEq

/-- Bytes stripped by Python `str.strip()` on an ASCII string. -/
def isPySpace (b : Nat) : Bool :=
  b == 9 || b == 10 || b == 11 || b == 12 || b == 13 ||
  b == 28 || b == 29 || b == 30 || b == 31 || b == 32

/-- Strip bytes satisfying `p` from both ends (`str.strip` / `str.strip('\x00')`). -/
def stripEnds (p : Nat → Bool) (l : List Nat) : List Nat :=
  ((l.dropWhile p).reverse.dropWhile p).reverse

/-- Header part of `read_raf_file` from `src/experimental/rafreader.py`
(lines 3-43): sequential reads of magic (16), format version (4), camera
ID (8), camera model (32, NUL-stripped), a relative seek of 24 bytes, then
six big-endian `u32` reads giving the (offset, length) pairs of the JPEG,
CFA-header and CFA-data regions.  No region is validated against the
buffer length. -/
def readRafHeader (data : List Nat) : Except RafErr RafHeaderR :=
  let f0 : PyFile := ⟨data, 0⟩
  let r1 := fread f0 16
  if asciiOk r1.1 then
    let r2 := fread r1.2 4
    if asciiOk r2.1 then
      let r3 := fread r2.2 8
      if asciiOk r3.1 then
        let r4 := fread r3.2 32
        if asciiOk r4.1 then
          let f5 := fseekRel r4.2 24
          let b1 := fread f5 4
          let b2 := fread b1.2 4
          let b3 := fread b2.2 4
          let b4 := fread b3.2 4
          let b5 := fread b4.2 4
          let b6 := fread b5.2 4
          if b1.1.length = 4 ∧ b2.1.length = 4 ∧ b3.1.length = 4 ∧
             b4.1.length = 4 ∧ b5.1.length = 4 ∧ b6.1.length = 4 then
            .ok ⟨stripEnds isPySpace r1.1, r2.1, r3.1,
                 stripEnds (fun b => b == 0) r4.1,
                 fromBytesBE b1.1, fromBytesBE b2.1, fromBytesBE b3.1,
                 fromBytesBE b4.1, fromBytesBE b5.1, fromBytesBE b6.1⟩
          else .error .structErr
        else .error .unicodeErr
      else .error .unicodeErr
    else .error .unicodeErr
  else .error .unicodeErr

/-- JPEG-preview extraction in `read_raf_file` (lines 49-50):
`file.seek(jpeg_offset)` followed by `file.read(jpeg_length)`, i.e. the
clamped slice `data[jpeg_offset : jpeg_offset + jpeg_length]`. -/
def extractJpeg (data : List Nat) (h : RafHeaderR) : List Nat :=
  sliceN data h.jpegOffset h.jpegLength

/-- Embedding of `read_raf_file`: parse the header, slice out the JPEG
region, and locate the EXIF block inside it with `find_app1_exif`. -/
def readRafFile (data : List Nat) :
    Except RafErr (RafHeaderR × List Nat × Option (List Nat)) :=
  match readRafHeader data with
  | .error err => .error err
  | .ok h =>
    .ok (h, extractJpeg data h, findApp1Exif (extractJpeg data h))

/-! Concrete test buffers.  Unless said otherwise, the JPEG-style buffers
put the `0xFFE1` marker at index 0, the `Exif\x00\x00` signature at 4..10
and hence the TIFF header (`II`, magic 42, first-IFD offset 8) at absolute
position 10, so the first IFD sits at absolute position 18 with its entry
at 20..32. -/

/-- JPEG buffer whose single IFD entry has `type=Short, count=2`
(total 4 bytes, an inline value per the TIFF rule): `valueOrOffset = 40`,
the bytes at `12 + 40 = 52` are `AA BB CC DD`. -/
def c1buf : List Nat :=
  [0xFF, 0xE1, 0x00, 0x00, 0x45, 0x78, 0x69, 0x66, 0x00, 0x00,
   0x49, 0x49, 0x2A, 0x00, 0x08, 0x00, 0x00, 0x00,
   0x01, 0x00,
   0x00, 0x01, 0x03, 0x00, 0x02, 0x00, 0x00, 0x00, 0x28, 0x00, 0x00, 0x00] ++
  List.replicate 20 0 ++ [0xAA, 0xBB, 0xCC, 0xDD]

/-- JPEG buffer whose single IFD entry has `type=Short, count=3`
(total 6 bytes, an offset value): `valueOrOffset = 40`, so the TIFF-header
relative position of the value bytes is `10 + 40 = 50` while the code reads
at `12 + 40 = 52`; bytes 50..58 are `11 22 33 44 55 66 77 88`. -/
def c2buf : List Nat :=
  [0xFF, 0xE1, 0x00, 0x00, 0x45, 0x78, 0x69, 0x66, 0x00, 0x00,
   0x49, 0x49, 0x2A, 0x00, 0x08, 0x00, 0x00, 0x00,
   0x01, 0x00,
   0x01, 0x01, 0x03, 0x00, 0x03, 0x00, 0x00, 0x00, 0x28, 0x00, 0x00, 0x00] ++
  List.replicate 18 0 ++ [0x11, 0x22, 0x33, 0x44, 0x55, 0x66, 0x77, 0x88]

/-- JPEG buffer whose IFD declares 2 entries but is truncated right after
the first one (32 bytes total): reading the second 12-byte entry record
overruns the buffer. -/
def c3buf : List Nat :=
  [0xFF, 0xE1, 0x00, 0x00, 0x45, 0x78, 0x69, 0x66, 0x00, 0x00,
   0x49, 0x49, 0x2A, 0x00, 0x08, 0x00, 0x00, 0x00,
   0x02, 0x00,
   0x12, 0x01, 0x03, 0x00, 0x01, 0x00, 0x00, 0x00, 0x08, 0x00, 0x00, 0x00]

/-- EXIF/TIFF block (as handed to `rafreader.parse_exif`) whose IFD at
offset 14 has zero entries and whose trailing `nextIfdOffset` (bytes
16..20, little-endian 14) points back at the same IFD: a one-step cycle. -/
def c4buf : List Nat :=
  [0x49, 0x49, 0x2A, 0x00, 0x08, 0x00, 0x00, 0x00,
   0x00, 0x00, 0x00, 0x00, 0x00, 0x00,
   0x00, 0x00,
   0x0E, 0x00, 0x00, 0x00]

/-- EXIF/TIFF block with `firstIfdOffset = 8` and a well-formed one-entry
IFD at offset 8 (tag `0x010F` Make, type Short, count 1), terminated by a
zero `nextIfdOffset`; bytes 14..16 (where the code starts reading instead)
happen to also read as a count of 1 with a garbage entry. -/
def c5buf : List Nat :=
  [0x49, 0x49, 0x2A, 0x00, 0x08, 0x00, 0x00, 0x00,
   0x01, 0x00,
   0x0F, 0x01, 0x03, 0x00, 0x01, 0x00, 0x00, 0x00, 0x07, 0x00, 0x00, 0x00,
   0x00, 0x00, 0x00, 0x00] ++ List.replicate 6 0

/-- JPEG buffer whose first `0xFFE1` (index 0) is followed by a non-EXIF
payload (`XM…`), with a valid APP1/EXIF segment later at index 6. -/
def c7buf : List Nat :=
  [0xFF, 0xE1, 0x00, 0x00, 0x58, 0x4D,
   0xFF, 0xE1, 0x00, 0x10, 0x45, 0x78, 0x69, 0x66, 0x00, 0x00,
   0x49, 0x49, 0x2A, 0x00, 0x00, 0x00, 0x00, 0x00]

/-- RAF container buffer (120 bytes) with distinct letters in each string
field, big-endian 99 at byte 76 and big-endian 42 at byte 84: it
discriminates where the JPEG-region offset is actually read. -/
def c8buf : List Nat :=
  List.replicate 16 0x41 ++ List.replicate 4 0x42 ++ List.replicate 8 0x43 ++
  List.replicate 32 0x44 ++ List.replicate 16 0 ++
  [0, 0, 0, 99] ++ [0, 0, 0, 0] ++ [0, 0, 0, 42] ++ List.replicate 32 0

/-- RAF container buffer (120 bytes) whose JPEG region (offset 108,
length 8) is in bounds while the CFA-data region (offset 100, length 1000)
overruns the file. -/
def c9buf : List Nat :=
  List.replicate 60 0x41 ++ List.replicate 24 0 ++
  [0, 0, 0, 108, 0, 0, 0, 8] ++
  [0, 0, 0, 0, 0, 0, 0, 0] ++
  [0, 0, 0, 100, 0, 0, 3, 232] ++
  [1, 2, 3, 4, 5, 6, 7, 8] ++ List.replicate 4 0

/-- JPEG buffer with a valid APP1/EXIF segment at index 0 and declared
segment length `0x0014 = 20`, so the EXIF block is bytes 10..22. -/
def c10buf : List Nat :=
  [0xFF, 0xE1, 0x00, 0x14, 0x45, 0x78, 0x69, 0x66, 0x00, 0x00,
   0x49, 0x49, 0x2A, 0x00, 0x08, 0x00, 0x00, 0x00, 0x00, 0x00,
   0x01, 0x02, 0x03, 0x04]

/-- The EXIF block `find_app1_exif` extracts from `c10buf`
(bytes 10..22 of it). -/
def c10blk : List Nat :=
  [0x49, 0x49, 0x2A, 0x00, 0x08, 0x00, 0x00, 0x00, 0x00, 0x00, 0x01, 0x02]

/-! General lemmas about the embedded functions. -/

/-- Step equation of the `data.find(b'\xff\xe1')` scan. -/
lemma findMarker_cons (a b : Nat) (r : List Nat) (i : Nat) :
    findMarker (a :: b :: r) i =
      if a = 0xFF ∧ b = 0xE1 then some i else findMarker (b :: r) (i + 1) := rfl

/-- Step equation of the `find_app1_exif` scan loop. -/
lemma findAuxGo_cons (data : List Nat) (index b : Nat) (rtl : List Nat) :
    findAuxGo data index (b :: rtl) =
      if index + 4 < data.length then
        if sliceN data index 2 = [0xFF, 0xE1] then
          if sliceN data (index + 4) 6 = exifSig then
            some (pySlice data (index + 10)
              (index + 2 + fromBytesBE (sliceN data (index + 2) 2)))
          else findAuxGo data (index + 1) rtl
        else findAuxGo data (index + 1) rtl
      else none := rfl

/-- A buffer with no two-byte `FF E1` slice anywhere makes the
`bytes.find` scan of `jpegreader.parse_exif` come up empty. -/
lemma findMarker_none (l : List Nat)
    (h : ∀ j, sliceN l j 2 ≠ [0xFF, 0xE1]) : ∀ i, findMarker l i = none := by
  induction l with
  | nil => intro i; rfl
  | cons a t ih =>
    intro i
    cases t with
    | nil => rfl
    | cons b r =>
      rw [findMarker_cons, if_neg]
      · exact ih (fun j => by
          have hj := h (j + 1)
          simpa [sliceN, List.drop_succ_cons] using hj) (i + 1)
      · rintro ⟨ha, hb⟩
        exact h 0 (by simp [sliceN, ha, hb])

/-- A buffer with no two-byte `FF E1` slice anywhere makes the scan loop
of `find_app1_exif` return `None`, wherever it starts. -/
lemma findAuxGo_none (data : List Nat)
    (h : ∀ j, sliceN data j 2 ≠ [0xFF, 0xE1]) :
    ∀ rem index, findAuxGo data index rem = none := by
  intro rem
  induction rem with
  | nil => intro index; rfl
  | cons b rtl ih =>
    intro index
    rw [findAuxGo_cons]
    by_cases hc : index + 4 < data.length
    · rw [if_pos hc, if_neg (h index), ih (index + 1)]
    · rw [if_neg hc]

/-- A slice starting at or past the end of the buffer is empty. -/
lemma sliceN_short (data : List Nat) (j : Nat) (hj : data.length ≤ j) :
    sliceN data j 2 = [] := by
  simp [sliceN, List.drop_eq_nil_of_le hj]

/-- Any block the `find_app1_exif` scan loop returns comes from an index
holding the APP1 marker followed by a valid `Exif\x00\x00` signature, and
is the slice the source computes there. -/
lemma findAuxGo_sound (data : List Nat) :
    ∀ (rem : List Nat) (index : Nat) (block : List Nat),
      findAuxGo data index rem = some block →
      ∃ i, index ≤ i ∧ i + 4 < data.length ∧
        sliceN data i 2 = [0xFF, 0xE1] ∧ sliceN data (i + 4) 6 = exifSig ∧
        block = pySlice data (i + 10)
          (i + 2 + fromBytesBE (sliceN data (i + 2) 2)) := by
  intro rem
  induction rem with
  | nil => intro index block h; exact absurd h (by simp [findAuxGo])
  | cons b rtl ih =>
    intro index block h
    rw [findAuxGo_cons] at h
    by_cases hc : index + 4 < data.length
    · rw [if_pos hc] at h
      by_cases hm : sliceN data index 2 = [0xFF, 0xE1]
      · rw [if_pos hm] at h
        by_cases hs : sliceN data (index + 4) 6 = exifSig
        · rw [if_pos hs] at h
          exact ⟨index, le_refl _, hc, hm, hs, (Option.some.inj h).symm⟩
        · rw [if_neg hs] at h
          obtain ⟨i, h1, h2, h3, h4, h5⟩ := ih (index + 1) block h
          exact ⟨i, by omega, h2, h3, h4, h5⟩
      · rw [if_neg hm] at h
        obtain ⟨i, h1, h2, h3, h4, h5⟩ := ih (index + 1) block h
        exact ⟨i, by omega, h2, h3, h4, h5⟩
    · rw [if_neg hc] at h
      exact absurd h (by simp)

/-- An in-bounds `file.read` returns exactly the requested slice and moves
the cursor by the requested amount. -/
lemma fread_exact (data : List Nat) (p n q : Nat) (h : p + n ≤ data.length)
    (hq : p + n = q) : fread ⟨data, p⟩ n = (sliceN data p n, ⟨data, q⟩) := by
  simp only [fread, sliceN]
  have hl : ((data.drop p).take n).length = n := by
    simp [List.length_take, List.length_drop]; omega
  rw [hl, hq]

/-- An in-bounds slice has exactly the requested length. -/
lemma sliceN_full_len (data : List Nat) (p n : Nat) (h : p + n ≤ data.length) :
    (sliceN data p n).length = n := by
  simp [sliceN, List.length_take, List.length_drop]; omega

/-- On the cyclic buffer `c4buf` the IFD chain loop of
`rafreader.parse_exif` maps the state `offset = 14` back to itself, so it
never terminates, whatever the fuel. -/
lemma c4_aux : ∀ n, rafIfdLoop c4buf Endian.little n 14 [] = none := by
  intro n
  induction n with
  | zero => rfl
  | succ k ih =>
    calc rafIfdLoop c4buf Endian.little (k + 1) 14 []
        = rafIfdLoop c4buf Endian.little k 14 [] := rfl
      _ = none := ih

/-! Claim theorems. -/

/-- C1: the claim says a `type=Short, count=2` entry (total 4 bytes) is
decoded from the 4-byte `valueOrOffset` field itself.  The code instead
always dereferences: on `c1buf` (entry `valueOrOffset = 40`) it returns
the shorts decoded from the buffer bytes at `12 + 40` (`AA BB CC DD`,
i.e. `0xBBAA, 0xDDCC`), not the inline interpretation `[40, 0]` of the
field bytes `28 00 00 00`. -/
theorem c1_code_eval :
    jpegParseExif c1buf =
      ([⟨0x0100, "ImageWidth", JValue.shorts [0xBBAA, 0xDDCC]⟩], none) ∧
    sliceN c1buf (12 + 40) 4 = [0xAA, 0xBB, 0xCC, 0xDD] ∧
    decode16s Endian.little [0x28, 0x00, 0x00, 0x00] = [40, 0] := by
  decide

/-- C2: the claim says an out-of-line value is read at
`tiffHeaderStart + valueOrOffset`.  On `c2buf` the TIFF header is at
absolute position 10 and `valueOrOffset = 40`, so the claimed position is
50, whose three shorts are `0x2211, 0x4433, 0x6655`; the code instead
reads at the hard-coded base `12 + 40 = 52` and returns
`0x4433, 0x6655, 0x8877`. -/
theorem c2_code_eval :
    jpegParseExif c2buf =
      ([⟨0x0101, "ImageHeight", JValue.shorts [0x4433, 0x6655, 0x8877]⟩], none) ∧
    decode16s Endian.little (sliceN c2buf (10 + 40) 6) =
      [0x2211, 0x4433, 0x6655] ∧
    ([0x4433, 0x6655, 0x8877] : List Nat) ≠ [0x2211, 0x4433, 0x6655] := by
  decide

/-- C3: the claim says a read that would overrun the buffer aborts the
current IFD with an `OutOfBounds` indication, still returning the tags
already decoded, and never causes an uncaught exception.  On `c3buf`
(2 declared entries, buffer truncated after the first)
`jpegreader.parse_exif` instead terminates with an uncaught
`struct.error` (no bounds check precedes any of its reads). -/
theorem c3_code_eval :
    jpegParseExif c3buf =
      ([⟨0x0112, "Orientation", JValue.shorts [0x0112]⟩],
       some JpegErr.structError) := by
  decide

/-- C4: the claim says the `nextIfdOffset` chain walk is depth-capped and
terminates on cyclic chains.  On `c4buf`, whose single IFD points back at
itself, the loop of `rafreader.parse_exif` never terminates: for every
fuel bound the embedded loop is still running (`none`), so no finite cap
exists in the code. -/
theorem c4_thm : ∀ fuel, rafParseExif c4buf fuel = none := by
  intro fuel
  show rafIfdLoop c4buf Endian.little fuel 14 [] = none
  exact c4_aux fuel

/-- C5: the claim says the first IFD is read at
`tiffHeaderStart + firstIfdOffset` with no extra fixed adjustment.  In
`rafreader.parse_exif` the block starts at the TIFF header (offset 0) and
`firstIfdOffset = 8` on `c5buf`, yet the code starts the IFD walk at
`8 + 6 = 14`: it reports one garbage tag `0x0000` instead of the
well-formed one-entry directory at offset 8 (count 1, tag `0x010F`). -/
theorem c5_code_eval :
    rafParseExif c5buf 8 = some (ROut.done [(0x0000, "Unknown tag 0x0000")]) ∧
    readU Endian.little c5buf 4 4 + 6 = 14 ∧
    readU Endian.little c5buf 8 2 = 1 ∧
    readU Endian.little c5buf 10 2 = 0x010F := by
  decide

/-- C6 counterexample: on `[0xFF, 0xD8]` (no `0xFFE1` marker anywhere, as
the code's own scan confirms) `jpegreader.parse_exif` terminates with the
hard error `ValueError("No APP1 header found.")`, refuting the claim that
the EXIF-locating operation returns an absent result rather than a hard
error. -/
theorem c6_counterexample :
    findMarker [0xFF, 0xD8] 0 = none ∧
    jpegParseExif [0xFF, 0xD8] = ([], some JpegErr.noApp1) := by
  decide

/-- C6 (amended): on any buffer with no `0xFFE1` marker,
`rafreader.find_app1_exif` returns `None` (absent, no error) while
`jpegreader.parse_exif` raises `ValueError("No APP1 header found.")`. -/
theorem c6_thm :
    ∀ data : List Nat, (∀ i, i < data.length → sliceN data i 2 ≠ [0xFF, 0xE1]) →
      findApp1Exif data = none ∧
      jpegParseExif data = ([], some JpegErr.noApp1) := by
  intro data h
  have h' : ∀ j, sliceN data j 2 ≠ [0xFF, 0xE1] := by
    intro j
    by_cases hj : j < data.length
    · exact h j hj
    · rw [sliceN_short data j (by omega)]
      simp
  refine ⟨findAuxGo_none data h' data 0, ?_⟩
  have hm : findMarker data 0 = none := findMarker_none data h' 0
  simp [jpegParseExif, hm]

/-- C6 witness: the amended theorem applied to the concrete
marker-free buffer `[0xFF, 0xD8]`. -/
theorem c6_witness :
    (∀ i, i < ([0xFF, 0xD8] : List Nat).length →
      sliceN [0xFF, 0xD8] i 2 ≠ [0xFF, 0xE1]) ∧
    (findApp1Exif [0xFF, 0xD8] = none ∧
      jpegParseExif [0xFF, 0xD8] = ([], some JpegErr.noApp1)) :=
  ⟨by decide, c6_thm [0xFF, 0xD8] (by decide)⟩

/-- C7 counterexample: on `c7buf` the first `0xFFE1` (index 0) is followed
by a non-EXIF payload and a valid APP1/EXIF segment follows at index 6;
`rafreader.find_app1_exif` skips the false match and finds it, but
`jpegreader.parse_exif` raises `ValueError("Invalid EXIF data.")` at the
first match, refuting the claim that the scan continues past a false
match rather than raising an error. -/
theorem c7_counterexample :
    jpegParseExif c7buf = ([], some JpegErr.invalidExif) ∧
    findApp1Exif c7buf =
      some [0x49, 0x49, 0x2A, 0x00, 0x00, 0x00, 0x00, 0x00] := by
  decide

/-- C7 (amended): the scan loop of `rafreader.find_app1_exif` steps past
an `0xFFE1` match whose following 6 bytes are not `Exif\x00\x00` and
continues scanning at the next index (while, per `c7_counterexample`,
`jpegreader.parse_exif` instead fails outright at the first match). -/
theorem c7_thm (data : List Nat) (i b : Nat) (rtl : List Nat)
    (h1 : i + 4 < data.length) (h2 : sliceN data i 2 = [0xFF, 0xE1])
    (h3 : sliceN data (i + 4) 6 ≠ exifSig) :
    findAuxGo data i (b :: rtl) = findAuxGo data (i + 1) rtl := by
  rw [findAuxGo_cons, if_pos h1, if_pos h2, if_neg h3]

/-- C7 witness: the amended theorem applied at index 0 of `c7buf`. -/
theorem c7_witness :
    (0 + 4 < c7buf.length) ∧ sliceN c7buf 0 2 = [0xFF, 0xE1] ∧
    sliceN c7buf (0 + 4) 6 ≠ exifSig ∧
    findAuxGo c7buf 0 (0xFF :: c7buf.drop 1) = findAuxGo c7buf (0 + 1) (c7buf.drop 1) :=
  ⟨by decide, by decide, by decide,
    c7_thm c7buf 0 0xFF (c7buf.drop 1) (by decide) (by decide) (by decide)⟩

/-- C8 counterexample: on `c8buf` (big-endian 99 at byte 76, big-endian 42
at byte 84) `read_raf_file` reports the JPEG-region offset 42, not the 99
stored at byte 76: the three (offset, length) pairs are not read starting
at byte 76 as the claim states. -/
theorem c8_counterexample :
    readRafHeader c8buf =
      .ok ⟨List.replicate 16 0x41, List.replicate 4 0x42,
        List.replicate 8 0x43, List.replicate 32 0x44, 42, 0, 0, 0, 0, 0⟩ ∧
    fromBytesBE (sliceN c8buf 76 4) = 99 ∧ (42 : Nat) ≠ 99 := by
  refine ⟨rfl, rfl, by decide⟩

/-- C8 (amended): the RAF header layout is as claimed except that the
three big-endian (offset, length) pairs start at byte 84
(16 + 4 + 8 + 32 + 24), not 76: magic at 0 (16 bytes, stripped), format
version at 16 (4 bytes), camera ID at 20 (8 bytes), camera model at 28
(32 bytes, NUL-stripped), a 24-byte skip, then JPEG, CFA-header and
CFA-data pairs at 84, 92 and 100. -/
theorem c8_thm (data : List Nat) (hlen : 108 ≤ data.length)
    (h1 : asciiOk (sliceN data 0 16) = true)
    (h2 : asciiOk (sliceN data 16 4) = true)
    (h3 : asciiOk (sliceN data 20 8) = true)
    (h4 : asciiOk (sliceN data 28 32) = true) :
    readRafHeader data =
      .ok ⟨stripEnds isPySpace (sliceN data 0 16), sliceN data 16 4,
        sliceN data 20 8, stripEnds (fun b => b == 0) (sliceN data 28 32),
        fromBytesBE (sliceN data 84 4), fromBytesBE (sliceN data 88 4),
        fromBytesBE (sliceN data 92 4), fromBytesBE (sliceN data 96 4),
        fromBytesBE (sliceN data 100 4), fromBytesBE (sliceN data 104 4)⟩ := by
  unfold readRafHeader
  simp only []
  rw [fread_exact data 0 16 16 (by omega) rfl]
  simp only [h1, if_true]
  rw [fread_exact data 16 4 20 (by omega) rfl]
  simp only [h2, if_true]
  rw [fread_exact data 20 8 28 (by omega) rfl]
  simp only [h3, if_true]
  rw [fread_exact data 28 32 60 (by omega) rfl]
  simp only [h4, if_true]
  simp only [fseekRel]
  norm_num
  rw [fread_exact data 84 4 88 (by omega) rfl]
  simp only []
  rw [fread_exact data 88 4 92 (by omega) rfl]
  simp only []
  rw [fread_exact data 92 4 96 (by omega) rfl]
  simp only []
  rw [fread_exact data 96 4 100 (by omega) rfl]
  simp only []
  rw [fread_exact data 100 4 104 (by omega) rfl]
  simp only []
  rw [fread_exact data 104 4 108 (by omega) rfl]
  simp only []
  rw [if_pos]
  exact ⟨sliceN_full_len data 84 4 (by omega), sliceN_full_len data 88 4 (by omega),
    sliceN_full_len data 92 4 (by omega), sliceN_full_len data 96 4 (by omega),
    sliceN_full_len data 100 4 (by omega), sliceN_full_len data 104 4 (by omega)⟩

/-- C8 witness: the amended layout theorem applied to `c8buf`. -/
theorem c8_witness :
    108 ≤ c8buf.length ∧
    readRafHeader c8buf =
      .ok ⟨stripEnds isPySpace (sliceN c8buf 0 16), sliceN c8buf 16 4,
        sliceN c8buf 20 8, stripEnds (fun b => b == 0) (sliceN c8buf 28 32),
        fromBytesBE (sliceN c8buf 84 4), fromBytesBE (sliceN c8buf 88 4),
        fromBytesBE (sliceN c8buf 92 4), fromBytesBE (sliceN c8buf 96 4),
        fromBytesBE (sliceN c8buf 100 4), fromBytesBE (sliceN c8buf 104 4)⟩ :=
  ⟨by decide, c8_thm c8buf (by decide) (by decide) (by decide) (by decide) (by decide)⟩

/-- C9: the claim says each RAF region is validated as
`offset + length ≤ buffer length` before being exposed, an overrun being
a decode error for that field.  On `c9buf` the CFA-data region
(offset 100, length 1000) overruns the 120-byte file, yet `read_raf_file`
exposes it unchanged with no error of any kind (it performs no region
validation at all); the in-bounds JPEG region is extracted as usual. -/
theorem c9_code_eval :
    readRafFile c9buf =
      .ok (⟨List.replicate 16 0x41, List.replicate 4 0x41,
        List.replicate 8 0x41, List.replicate 32 0x41,
        108, 8, 0, 0, 100, 1000⟩, [1, 2, 3, 4, 5, 6, 7, 8], none) ∧
    100 + 1000 > c9buf.length := by
  refine ⟨rfl, by decide⟩

/-- C10: `find_app1_exif` is total by construction (every operation it
performs clamps or is guarded), and any block it returns starts 10 bytes
after an index `i` holding `FF E1` with `Exif\x00\x00` at `i + 4`, is a
contiguous sub-slice of the input, and has length the big-endian 16-bit
value at `i + 2` minus 8, clamped to the end of the input. -/
theorem c10_thm (data block : List Nat) (h : findApp1Exif data = some block) :
    ∃ i, i + 4 < data.length ∧
      sliceN data i 2 = [0xFF, 0xE1] ∧ sliceN data (i + 4) 6 = exifSig ∧
      block = pySlice data (i + 10)
        (i + 2 + fromBytesBE (sliceN data (i + 2) 2)) ∧
      (∃ s t, s ++ block ++ t = data) ∧
      block.length =
        min (fromBytesBE (sliceN data (i + 2) 2) - 8)
          (data.length - (i + 10)) := by
  obtain ⟨i, _, hc, hm, hs, hb⟩ := findAuxGo_sound data data 0 block h
  refine ⟨i, hc, hm, hs, hb, ?_, ?_⟩
  · refine ⟨data.take (i + 10),
      (data.drop (i + 10)).drop
        (i + 2 + fromBytesBE (sliceN data (i + 2) 2) - (i + 10)), ?_⟩
    rw [hb, pySlice, List.append_assoc, List.take_append_drop,
      List.take_append_drop]
  · rw [hb, pySlice]
    simp only [List.length_take, List.length_drop]
    omega

/-- C10 witness: the characterization applied to the concrete buffer
`c10buf`, whose EXIF block is `c10blk`. -/
theorem c10_witness :
    findApp1Exif c10buf = some c10blk ∧
    (∃ i, i + 4 < c10buf.length ∧
      sliceN c10buf i 2 = [0xFF, 0xE1] ∧ sliceN c10buf (i + 4) 6 = exifSig ∧
      c10blk = pySlice c10buf (i + 10)
        (i + 2 + fromBytesBE (sliceN c10buf (i + 2) 2)) ∧
      (∃ s t, s ++ c10blk ++ t = c10buf) ∧
      c10blk.length =
        min (fromBytesBE (sliceN c10buf (i + 2) 2) - 8)
          (c10buf.length - (i + 10))) :=
  ⟨by decide, c10_thm c10buf c10blk (by decide)⟩

end ExifRs
